import Mathlib

/-!
Shallow embedding of the RTMP client session protocol engine
(`src/protocol/rtmp/src/session/client_session.rs`) and proofs about its
message-dispatch logic.

The dispatcher (`process_messages` / `process_amf0_command_message`) is a
synchronous, in-memory function of the decoded message and the session
state; its only effects are mutating the session fields, emitting outbound
protocol-control messages, or returning a `SessionError`.  We model it as a
pure function from a session and a message to a `DispatchResult` carrying
the updated session and the list of emitted outbound messages.  A Rust
panic (reachable through `Vec::remove(0)` on an empty vector in the
`onStatus` arm) is modelled by a dedicated `panicked` outcome.

AMF0 numbers travel on the wire as IEEE doubles; the session code only ever
reads a number through the Rust cast `f64 as u8`.  Every finite double is a
rational, and the cast truncates toward zero and saturates into `[0, 255]`,
so we embed AMF0 numbers as `ℚ` and the cast as `f64_as_u8` below.
-/

namespace Xiu

/-- Modelled from the spec: the AMF0 tagged-value type of the wire codec
(the `amf0` module is outside the provided sources).  §3 of the spec lists
the tags used by command objects: string, number, boolean, object, null.
Objects are finite string-keyed maps, embedded as association lists. -/
inductive Amf0ValueType : Type
  | Number : ℚ → Amf0ValueType
  | Boolean : Bool → Amf0ValueType
  | UTF8String : String → Amf0ValueType
  | Object : List (String × Amf0ValueType) → Amf0ValueType
  | Null : Amf0ValueType

/-- Modelled from the spec: the session error taxonomy (the `errors` module
is outside the provided sources).  Only the variant the dispatcher itself
constructs is needed: `Amf0ValueCountNotCorrect`, the spec's
`ArgumentShapeMismatch` for a malformed `onStatus` argument list. -/
inductive SessionErrorValue : Type
  | Amf0ValueCountNotCorrect : SessionErrorValue
  deriving DecidableEq

/-- The `ClientSessionState` enum from `client_session.rs` lines 34-40: the spec's
`Phase` (`Handshaking / Connecting / CreatingStream / Playing /
Publishing`). -/
inductive ClientSessionState : Type
  | Handshake : ClientSessionState
  | Connect : ClientSessionState
  | CreateStream : ClientSessionState
  | Play : ClientSessionState
  | PublishingContent : ClientSessionState
  deriving DecidableEq

/-- The `ClientType` enum from `client_session.rs` lines 58-61: the spec's `Role`. -/
inductive ClientType : Type
  | Play : ClientType
  | Publish : ClientType
  deriving DecidableEq

/-- Modelled from the spec: the chunk reassembler (`ChunkUnpacketizer`,
outside the provided sources) as seen by the session: it carries a mutable
accepted maximum chunk size, with a setter (`set_max_chunk_size(usize)` in
§6 of the spec). -/
structure ChunkUnpacketizer : Type where
  max_chunk_size : Nat
  deriving DecidableEq

/-- Setter `ChunkUnpacketizer::update_max_chunk_size`, modelled from the spec
(§6): sets the reassembler's accepted maximum chunk size. -/
def update_max_chunk_size (up : ChunkUnpacketizer) (n : Nat) : ChunkUnpacketizer :=
  { up with max_chunk_size := n }

/-- The fields of `ClientSession` (lines 62-72) that the dispatcher reads
or writes: the lifecycle state, the role, the stream name, the parser mode
byte, and the chunk reassembler.  The network handle, packetizer and
handshaker only matter to I/O, which we record as emitted messages. -/
structure ClientSession : Type where
  state : ClientSessionState
  client_type : ClientType
  stream_name : String
  session_type : Nat
  unpacketizer : ChunkUnpacketizer
  deriving DecidableEq

/-- Modelled from the spec: the reserved transaction id the client uses for
its "connect" request (`define::TRANSACTION_ID_CONNECT`, from the session
`define` module outside the provided sources).  The spec fixes it as a
protocol-reserved constant distinct from the create-stream id; the value 1
follows the RTMP convention for "connect", and no proof below depends on
anything beyond the two constants being distinct byte values. -/
def TRANSACTION_ID_CONNECT : Nat := 1

/-- Modelled from the spec: the reserved transaction id for the
"create-stream" request (`define::TRANSACTION_ID_CREATE_STREAM`), a fixed
constant distinct from the connect id. -/
def TRANSACTION_ID_CREATE_STREAM : Nat := 2

/-- The Rust cast `f64 as u8` applied at `client_session.rs` line 199
(`number.clone() as u8`): truncate toward zero and saturate into
`[0, 255]`.  On a non-negative rational this is `min ⌊q⌋ 255`; a negative
value saturates to 0, which `Int.toNat` already yields. -/
def f64_as_u8 (q : ℚ) : Nat :=
  min q.floor.toNat 255

/-- An outbound message emitted by the session while dispatching.  The only
one the dispatcher emits is the window-acknowledgement-size control reply
(`send_window_acknowledgement_size`, lines 328-338). -/
inductive OutMsg : Type
  | windowAcknowledgementSize : Nat → OutMsg
  deriving DecidableEq

/-- The `SetPeerBandwidth` payload: the peer's announced window size
(`properties.window_size`, printed at line 169). -/
structure SetPeerBandwidthProperties : Type where
  window_size : Nat
  deriving DecidableEq

/-- The decoded-message variants of `RtmpMessageData` that
`process_messages` (lines 152-183) distinguishes; every other variant falls
into the wildcard arm, collapsed here into `OtherMessage`. -/
inductive RtmpMessageData : Type
  | Amf0Command : Amf0ValueType → Amf0ValueType → Amf0ValueType →
      List Amf0ValueType → RtmpMessageData
  | SetPeerBandwidth : SetPeerBandwidthProperties → RtmpMessageData
  | SetChunkSize : Nat → RtmpMessageData
  | AudioData : List Nat → RtmpMessageData
  | VideoData : List Nat → RtmpMessageData
  | OtherMessage : RtmpMessageData

/-- Outcome of dispatching one decoded message: normal return with the
updated session and the outbound messages written, an error return (the
session unchanged up to the mutations already applied, plus anything
already written), or a Rust panic. -/
inductive DispatchResult : Type
  | ok : ClientSession → List OutMsg → DispatchResult
  | err : SessionErrorValue → ClientSession → List OutMsg → DispatchResult
  | panicked : DispatchResult
  deriving DecidableEq

/-- Handler `on_result_connect` (lines 383-386): unconditionally set the state to
`CreateStream`. -/
def on_result_connect (s : ClientSession) : Except SessionErrorValue ClientSession :=
  Except.ok { s with state := ClientSessionState.CreateStream }

/-- Handler `on_result_create_stream` (lines 388-398): branch on the role and set
the state to `Play` or `PublishingContent`. -/
def on_result_create_stream (s : ClientSession) : Except SessionErrorValue ClientSession :=
  match s.client_type with
  | ClientType.Play => Except.ok { s with state := ClientSessionState.Play }
  | ClientType.Publish => Except.ok { s with state := ClientSessionState.PublishingContent }

/-- Handler `on_set_chunk_size` (lines 400-404): forward the received size to the
reassembler (`u32 as usize` is lossless). -/
def on_set_chunk_size (s : ClientSession) (chunk_size : Nat) :
    Except SessionErrorValue ClientSession :=
  Except.ok { s with unpacketizer := update_max_chunk_size s.unpacketizer chunk_size }

/-- Handler `on_set_peer_bandwidth` (lines 406-409): write one
window-acknowledgement-size control message with the constant 250000,
ignoring the received window size; no session field changes. -/
def on_set_peer_bandwidth (s : ClientSession) : ClientSession × List OutMsg :=
  (s, [OutMsg.windowAcknowledgementSize 250000])

/-- Handler `on_error` (lines 410-412): a no-op acknowledging the reply. -/
def on_error (s : ClientSession) : Except SessionErrorValue ClientSession :=
  Except.ok s

/-- Handler `on_status` (lines 414-417): prints the object's size; no session field
changes. -/
def on_status (s : ClientSession) (_obj : List (String × Amf0ValueType)) :
    Except SessionErrorValue ClientSession :=
  Except.ok s

/-- Lines 192-196 of `process_amf0_command_message`: read the command name
from a `UTF8String`, any other tag defaulting to the empty string. -/
def command_name_str : Amf0ValueType → String
  | Amf0ValueType.UTF8String str => str
  | _ => ""

/-- Lines 198-201 of `process_amf0_command_message`: narrow the transaction
id with `f64 as u8`, any non-`Number` tag defaulting to 0. -/
def command_tid_u8 : Amf0ValueType → Nat
  | Amf0ValueType.Number number => f64_as_u8 number
  | _ => 0

/-- Dispatcher `process_amf0_command_message` (lines 185-238).  The command name is
read from a `UTF8String`, defaulting to the empty string; the transaction
id is narrowed by `f64 as u8`, defaulting to 0 for a non-`Number`; the
command object is coerced to an empty map and discarded.  The name match
uses the source's literal `"_reslut"`.  The `onStatus` arm performs
`others.remove(0)`, which panics in Rust when the vector is empty. -/
def process_amf0_command_message (s : ClientSession)
    (command_name : Amf0ValueType) (transaction_id : Amf0ValueType)
    (command_object : Amf0ValueType) (others : List Amf0ValueType) :
    DispatchResult :=
  let cmd_name : String := command_name_str command_name
  let tid : Nat := command_tid_u8 transaction_id
  let _cmd_obj : List (String × Amf0ValueType) :=
    match command_object with
    | Amf0ValueType.Object obj => obj
    | _ => []
  if cmd_name = "_reslut" then
    if tid = TRANSACTION_ID_CONNECT then
      match on_result_connect s with
      | Except.ok s2 => DispatchResult.ok s2 []
      | Except.error e => DispatchResult.err e s []
    else if tid = TRANSACTION_ID_CREATE_STREAM then
      match on_result_create_stream s with
      | Except.ok s2 => DispatchResult.ok s2 []
      | Except.error e => DispatchResult.err e s []
    else
      DispatchResult.ok s []
  else if cmd_name = "_error" then
    match on_error s with
    | Except.ok s2 => DispatchResult.ok s2 []
    | Except.error e => DispatchResult.err e s []
  else if cmd_name = "onStatus" then
    match others with
    | [] => DispatchResult.panicked
    | first :: _ =>
      match first with
      | Amf0ValueType.Object obj =>
        match on_status s obj with
        | Except.ok s2 => DispatchResult.ok s2 []
        | Except.error e => DispatchResult.err e s []
      | _ => DispatchResult.err SessionErrorValue.Amf0ValueCountNotCorrect s []
  else
    DispatchResult.ok s []

/-- Dispatcher `process_messages` (lines 152-183): route one decoded message.  Audio
and video payloads only have their length observed; unrecognized variants
are no-ops. -/
def process_messages (s : ClientSession) (msg : RtmpMessageData) : DispatchResult :=
  match msg with
  | RtmpMessageData.Amf0Command command_name transaction_id command_object others =>
      process_amf0_command_message s command_name transaction_id command_object others
  | RtmpMessageData.SetPeerBandwidth _properties =>
      match on_set_peer_bandwidth s with
      | (s2, out) => DispatchResult.ok s2 out
  | RtmpMessageData.SetChunkSize chunk_size =>
      match on_set_chunk_size s chunk_size with
      | Except.ok s2 => DispatchResult.ok s2 []
      | Except.error e => DispatchResult.err e s []
  | RtmpMessageData.AudioData _ => DispatchResult.ok s []
  | RtmpMessageData.VideoData _ => DispatchResult.ok s []
  | RtmpMessageData.OtherMessage => DispatchResult.ok s []

/-- Position of each state along the spec's lifecycle chain
`Handshaking → Connecting → CreatingStream → {Playing | Publishing}`
(§4.1); the two terminal states share the last position. -/
def phase_rank : ClientSessionState → Nat
  | ClientSessionState.Handshake => 0
  | ClientSessionState.Connect => 1
  | ClientSessionState.CreateStream => 2
  | ClientSessionState.Play => 3
  | ClientSessionState.PublishingContent => 3

/-- A concrete session sitting in the `Connecting` phase of a play-role
client, used to evaluate the dispatcher at specific inputs. -/
def connectingSession : ClientSession :=
  { state := ClientSessionState.Connect
    client_type := ClientType.Play
    stream_name := "livestream"
    session_type := 0
    unpacketizer := { max_chunk_size := 128 } }

/-- The same client one phase later, in `CreatingStream`. -/
def creatingStreamSession : ClientSession :=
  { connectingSession with state := ClientSessionState.CreateStream }

/-- The same client in its terminal `Playing` phase. -/
def playingSession : ClientSession :=
  { connectingSession with state := ClientSessionState.Play }

/-- Claim C1: in the `Connecting` phase, a `Command` named `"_result"`
with the connect reserved transaction id advances the phase to
`CreatingStream`.  The code instead compares the name against the
misspelled literal `"_reslut"` (line 211), so the correctly spelled reply
falls into the wildcard arm: the dispatcher returns `Ok` and the phase
stays `Connecting`.  This theorem evaluates the code at that failing
input. -/
theorem correct_result_name_connect_reply_is_dropped :
    process_messages connectingSession
      (RtmpMessageData.Amf0Command (Amf0ValueType.UTF8String "_result")
        (Amf0ValueType.Number ((TRANSACTION_ID_CONNECT : Nat) : ℚ))
        Amf0ValueType.Null [])
      = DispatchResult.ok connectingSession []
    ∧ connectingSession.state = ClientSessionState.Connect := by
  constructor
  · rfl
  · rfl

/-- Claim C2: an `onStatus` command with an empty trailing-arguments list
returns `Amf0ValueCountNotCorrect` and never panics.  The code performs
`others.remove(0)` (line 224) before inspecting the shape, and
`Vec::remove` panics on an empty vector, so the dispatcher panics instead
of returning the error. -/
theorem on_status_empty_arguments_panics :
    process_messages connectingSession
      (RtmpMessageData.Amf0Command (Amf0ValueType.UTF8String "onStatus")
        (Amf0ValueType.Number 0) Amf0ValueType.Null [])
      = DispatchResult.panicked := by
  rfl

/-- Claim C4: in the `CreatingStream` phase, a `Command` named
`"_result"` with the create-stream reserved id advances the phase to
`Playing` (play role) or `Publishing` (publish role).  Because of the
misspelled `"_reslut"` literal (line 211), the correctly spelled reply is
ignored: the play-role session below stays in `CreateStream`. -/
theorem correct_result_name_create_stream_reply_is_dropped :
    process_messages creatingStreamSession
      (RtmpMessageData.Amf0Command (Amf0ValueType.UTF8String "_result")
        (Amf0ValueType.Number ((TRANSACTION_ID_CREATE_STREAM : Nat) : ℚ))
        Amf0ValueType.Null [])
      = DispatchResult.ok creatingStreamSession []
    ∧ creatingStreamSession.state = ClientSessionState.CreateStream
    ∧ creatingStreamSession.client_type = ClientType.Play := by
  refine ⟨?_, rfl, rfl⟩
  rfl

/-- Claim C6: dispatching `SetPeerBandwidth` emits exactly one outbound
`WindowAcknowledgementSize` message carrying the fixed constant 250000,
whatever window size the peer announced, and leaves the session
unchanged. -/
theorem set_peer_bandwidth_emits_one_fixed_ack (s : ClientSession)
    (props : SetPeerBandwidthProperties) :
    process_messages s (RtmpMessageData.SetPeerBandwidth props)
      = DispatchResult.ok s [OutMsg.windowAcknowledgementSize 250000] := by
  rfl

/-- Claim C7: dispatching `SetChunkSize n` updates the reassembler's accepted
maximum chunk size to exactly `n` and leaves the session phase
unchanged. -/
theorem set_chunk_size_updates_reassembler (s : ClientSession) (n : Nat) :
    process_messages s (RtmpMessageData.SetChunkSize n)
      = DispatchResult.ok
          { s with unpacketizer := update_max_chunk_size s.unpacketizer n } []
    ∧ (update_max_chunk_size s.unpacketizer n).max_chunk_size = n
    ∧ ({ s with unpacketizer := update_max_chunk_size s.unpacketizer n }
        : ClientSession).state = s.state := by
  exact ⟨rfl, rfl, rfl⟩

/-- Counterexample for C3.  The claim says no dispatch step ever moves the
phase backward along the lifecycle chain.  The reply handlers set the state
without consulting the current phase: dispatching a `"_reslut"` command
carrying the connect reserved id while the session is already `Playing`
moves the phase back to `CreateStream`, a strictly smaller rank. -/
theorem connect_reply_in_playing_regresses_phase :
    process_messages playingSession
      (RtmpMessageData.Amf0Command (Amf0ValueType.UTF8String "_reslut")
        (Amf0ValueType.Number ((TRANSACTION_ID_CONNECT : Nat) : ℚ))
        Amf0ValueType.Null [])
      = DispatchResult.ok creatingStreamSession []
    ∧ phase_rank creatingStreamSession.state < phase_rank playingSession.state := by
  exact ⟨rfl, by decide⟩

/-- Amended claim C3.  Every dispatch step that returns normally either leaves
the phase unchanged, or sets it to `CreateStream` (the connect-reply
handler), or sets it to the role's terminal phase (the create-stream-reply
handler); the handlers never consult the current phase, so the intended
forward transition happens when the matching phase receives the reply, but
a reply arriving in any other phase can skip ahead or regress. -/
theorem dispatch_step_reaches_only_handler_targets (s : ClientSession)
    (m : RtmpMessageData) (s2 : ClientSession) (out : List OutMsg)
    (h : process_messages s m = DispatchResult.ok s2 out) :
    s2.state = s.state
    ∨ s2.state = ClientSessionState.CreateStream
    ∨ (s.client_type = ClientType.Play ∧ s2.state = ClientSessionState.Play)
    ∨ (s.client_type = ClientType.Publish
        ∧ s2.state = ClientSessionState.PublishingContent) := by
  cases m with
  | Amf0Command command_name transaction_id command_object others =>
    simp only [process_messages, process_amf0_command_message] at h
    split at h
    · split at h
      · simp only [on_result_connect, DispatchResult.ok.injEq] at h
        obtain ⟨h1, -⟩ := h
        subst h1
        right; left; rfl
      · split at h
        · cases hct : s.client_type with
          | Play =>
            simp only [on_result_create_stream, hct, DispatchResult.ok.injEq] at h
            obtain ⟨h1, -⟩ := h
            subst h1
            right; right; left; exact ⟨rfl, rfl⟩
          | Publish =>
            simp only [on_result_create_stream, hct, DispatchResult.ok.injEq] at h
            obtain ⟨h1, -⟩ := h
            subst h1
            right; right; right; exact ⟨rfl, rfl⟩
        · simp only [DispatchResult.ok.injEq] at h
          obtain ⟨h1, -⟩ := h
          subst h1
          left; rfl
    · split at h
      · simp only [on_error, DispatchResult.ok.injEq] at h
        obtain ⟨h1, -⟩ := h
        subst h1
        left; rfl
      · split at h
        · split at h
          · exact absurd h (by simp)
          · split at h
            · simp only [on_status, DispatchResult.ok.injEq] at h
              obtain ⟨h1, -⟩ := h
              subst h1
              left; rfl
            · exact absurd h (by simp)
        · simp only [DispatchResult.ok.injEq] at h
          obtain ⟨h1, -⟩ := h
          subst h1
          left; rfl
  | SetPeerBandwidth props =>
    simp only [process_messages, on_set_peer_bandwidth, DispatchResult.ok.injEq] at h
    obtain ⟨h1, -⟩ := h
    subst h1
    left; rfl
  | SetChunkSize n =>
    simp only [process_messages, on_set_chunk_size, DispatchResult.ok.injEq] at h
    obtain ⟨h1, -⟩ := h
    subst h1
    left; rfl
  | AudioData d =>
    simp only [process_messages, DispatchResult.ok.injEq] at h
    obtain ⟨h1, -⟩ := h
    subst h1
    left; rfl
  | VideoData d =>
    simp only [process_messages, DispatchResult.ok.injEq] at h
    obtain ⟨h1, -⟩ := h
    subst h1
    left; rfl
  | OtherMessage =>
    simp only [process_messages, DispatchResult.ok.injEq] at h
    obtain ⟨h1, -⟩ := h
    subst h1
    left; rfl

/-- Witness for the C3 amended theorem at a concrete input: dispatching a
`SetChunkSize` message from the connecting session leaves the phase in the
allowed set. -/
theorem dispatch_step_reaches_only_handler_targets_witness :
    ({ connectingSession with
        unpacketizer := update_max_chunk_size connectingSession.unpacketizer 4096
      } : ClientSession).state = connectingSession.state
    ∨ ({ connectingSession with
        unpacketizer := update_max_chunk_size connectingSession.unpacketizer 4096
      } : ClientSession).state = ClientSessionState.CreateStream
    ∨ (connectingSession.client_type = ClientType.Play
        ∧ ({ connectingSession with
            unpacketizer := update_max_chunk_size connectingSession.unpacketizer 4096
          } : ClientSession).state = ClientSessionState.Play)
    ∨ (connectingSession.client_type = ClientType.Publish
        ∧ ({ connectingSession with
            unpacketizer := update_max_chunk_size connectingSession.unpacketizer 4096
          } : ClientSession).state = ClientSessionState.PublishingContent) :=
  dispatch_step_reaches_only_handler_targets connectingSession
    (RtmpMessageData.SetChunkSize 4096)
    { connectingSession with
        unpacketizer := update_max_chunk_size connectingSession.unpacketizer 4096 }
    [] rfl

/-- Claim C5: a session still in the `Connecting` phase that dispatches a
`"_result"` command carrying the create-stream reserved id keeps its phase:
the dispatcher returns `Ok` with the session unchanged.  (In this source
the guarantee is even stronger than correlation: the name comparison uses
the misspelled `"_reslut"`, so a correctly spelled `"_result"` reply always
falls into the wildcard no-op arm.) -/
theorem create_stream_reply_in_connecting_keeps_phase (s : ClientSession)
    (command_object : Amf0ValueType) (others : List Amf0ValueType)
    (h : s.state = ClientSessionState.Connect) :
    process_messages s
      (RtmpMessageData.Amf0Command (Amf0ValueType.UTF8String "_result")
        (Amf0ValueType.Number ((TRANSACTION_ID_CREATE_STREAM : Nat) : ℚ))
        command_object others)
      = DispatchResult.ok s []
    ∧ s.state = ClientSessionState.Connect := by
  refine ⟨?_, h⟩
  simp only [process_messages, process_amf0_command_message]
  rw [if_neg (by decide), if_neg (by decide), if_neg (by decide)]

/-- Witness for C5 at a concrete session in `Connecting`. -/
theorem create_stream_reply_in_connecting_keeps_phase_witness :
    process_messages connectingSession
      (RtmpMessageData.Amf0Command (Amf0ValueType.UTF8String "_result")
        (Amf0ValueType.Number ((TRANSACTION_ID_CREATE_STREAM : Nat) : ℚ))
        Amf0ValueType.Null [])
      = DispatchResult.ok connectingSession []
    ∧ connectingSession.state = ClientSessionState.Connect :=
  create_stream_reply_in_connecting_keeps_phase connectingSession
    Amf0ValueType.Null [] rfl

/-- Claim C8: a `"_result"` reply whose narrowed transaction id matches neither
reserved constant is dispatched as a success that changes nothing: the
session (its phase and its reassembler's `max_chunk_size` included) is
returned unchanged and no error is raised.  (The hypotheses are never even
consulted by this source: the name comparison uses the misspelled
`"_reslut"`, so every `"_result"` command takes the wildcard no-op arm.) -/
theorem unrelated_result_id_changes_nothing (s : ClientSession) (q : ℚ)
    (command_object : Amf0ValueType) (others : List Amf0ValueType)
    (h1 : f64_as_u8 q ≠ TRANSACTION_ID_CONNECT)
    (h2 : f64_as_u8 q ≠ TRANSACTION_ID_CREATE_STREAM) :
    process_messages s
      (RtmpMessageData.Amf0Command (Amf0ValueType.UTF8String "_result")
        (Amf0ValueType.Number q) command_object others)
      = DispatchResult.ok s [] := by
  simp only [process_messages, process_amf0_command_message]
  rw [if_neg (by decide), if_neg (by decide), if_neg (by decide)]

/-- Witness for C8: the narrowed id 7 matches neither reserved constant,
and the dispatch leaves the concrete session untouched. -/
theorem unrelated_result_id_changes_nothing_witness :
    f64_as_u8 7 ≠ TRANSACTION_ID_CONNECT
    ∧ f64_as_u8 7 ≠ TRANSACTION_ID_CREATE_STREAM
    ∧ process_messages connectingSession
        (RtmpMessageData.Amf0Command (Amf0ValueType.UTF8String "_result")
          (Amf0ValueType.Number 7) Amf0ValueType.Null [])
        = DispatchResult.ok connectingSession [] :=
  ⟨by decide, by decide,
    unrelated_result_id_changes_nothing connectingSession 7
      Amf0ValueType.Null [] (by decide) (by decide)⟩

/-- Helper for C9: the `f64 as u8` narrowing saturates at 255 for any
transaction id of at least 255. -/
theorem f64_as_u8_saturates (q : ℚ) (h : 255 ≤ q) : f64_as_u8 q = 255 := by
  have h2 : (255 : ℤ) ≤ q.floor := Rat.le_floor.mpr (by exact_mod_cast h)
  unfold f64_as_u8
  omega

/-- Claim C9: the dispatcher reads a command's transaction id only through the
`f64 as u8` narrowing (line 199): two wire ids with the same narrowed byte
produce identical dispatch results on otherwise-identical commands, and any
two ids of at least 255 narrow to the same byte, so ids beyond 255 are not
distinguished from each other. -/
theorem dispatch_reads_tid_only_through_u8_narrowing :
    (∀ (s : ClientSession) (command_name command_object : Amf0ValueType)
        (others : List Amf0ValueType) (a b : ℚ),
        f64_as_u8 a = f64_as_u8 b →
        process_messages s (RtmpMessageData.Amf0Command command_name
            (Amf0ValueType.Number a) command_object others)
          = process_messages s (RtmpMessageData.Amf0Command command_name
            (Amf0ValueType.Number b) command_object others))
    ∧ (∀ a b : ℚ, 255 ≤ a → 255 ≤ b → f64_as_u8 a = f64_as_u8 b) := by
  constructor
  · intro s command_name command_object others a b hab
    simp only [process_messages, process_amf0_command_message, command_tid_u8, hab]
  · intro a b ha hb
    rw [f64_as_u8_saturates a ha, f64_as_u8_saturates b hb]

/-- Witness for C9 at concrete inputs: the ids 300 and 1000 both narrow to
255, and the dispatcher treats the two replies identically. -/
theorem dispatch_reads_tid_only_through_u8_narrowing_witness :
    f64_as_u8 300 = f64_as_u8 1000
    ∧ process_messages connectingSession
        (RtmpMessageData.Amf0Command (Amf0ValueType.UTF8String "_reslut")
          (Amf0ValueType.Number 300) Amf0ValueType.Null [])
      = process_messages connectingSession
        (RtmpMessageData.Amf0Command (Amf0ValueType.UTF8String "_reslut")
          (Amf0ValueType.Number 1000) Amf0ValueType.Null []) :=
  ⟨dispatch_reads_tid_only_through_u8_narrowing.2 300 1000 (by norm_num) (by norm_num),
    dispatch_reads_tid_only_through_u8_narrowing.1 connectingSession
      (Amf0ValueType.UTF8String "_reslut") Amf0ValueType.Null [] 300 1000
      (dispatch_reads_tid_only_through_u8_narrowing.2 300 1000
        (by norm_num) (by norm_num))⟩

/-- Counterexample for C10.  The claim says every command with a non-`Number`
transaction id dispatches to a success with the phase unchanged.  An
`onStatus` command is a counterexample: its handling never looks at the
transaction id, and with a first trailing argument that is not an object it
returns the `Amf0ValueCountNotCorrect` error, not a success. -/
theorem non_number_tid_on_status_still_errors :
    process_messages connectingSession
      (RtmpMessageData.Amf0Command (Amf0ValueType.UTF8String "onStatus")
        Amf0ValueType.Null Amf0ValueType.Null [Amf0ValueType.Number 0])
      = DispatchResult.err SessionErrorValue.Amf0ValueCountNotCorrect
          connectingSession []
    ∧ process_messages connectingSession
        (RtmpMessageData.Amf0Command (Amf0ValueType.UTF8String "onStatus")
          Amf0ValueType.Null Amf0ValueType.Null [Amf0ValueType.Number 0])
      ≠ DispatchResult.ok connectingSession [] := by
  exact ⟨rfl, by decide⟩

/-- Helper shared by the C10 analysis: any command whose narrowed
transaction id matches neither reserved constant and whose name does not
read as `"onStatus"` is dispatched as a success that changes nothing. -/
theorem dispatch_unmatched_tid_not_on_status (s : ClientSession)
    (command_name transaction_id command_object : Amf0ValueType)
    (others : List Amf0ValueType)
    (h1 : command_tid_u8 transaction_id ≠ TRANSACTION_ID_CONNECT)
    (h2 : command_tid_u8 transaction_id ≠ TRANSACTION_ID_CREATE_STREAM)
    (hname : command_name_str command_name ≠ "onStatus") :
    process_messages s (RtmpMessageData.Amf0Command command_name transaction_id
        command_object others) = DispatchResult.ok s [] := by
  simp only [process_messages, process_amf0_command_message]
  split
  · rfl
  · split
    · rfl
    · rfl

/-- Amended claim C10.  A command whose transaction-id field is not an AMF0
`Number` has its id coerced to 0, which matches neither reserved constant,
so the dispatch result is the same as with an explicit id 0; and for every
such command other than `"onStatus"` (whose handling ignores the id but can
reject its arguments) the dispatch returns success with the session, hence
the phase, unchanged. -/
theorem non_number_tid_coerced_to_zero (s : ClientSession)
    (command_name transaction_id command_object : Amf0ValueType)
    (others : List Amf0ValueType)
    (hnum : ∀ q : ℚ, transaction_id ≠ Amf0ValueType.Number q)
    (hname : command_name ≠ Amf0ValueType.UTF8String "onStatus") :
    process_messages s (RtmpMessageData.Amf0Command command_name transaction_id
        command_object others) = DispatchResult.ok s []
    ∧ process_messages s (RtmpMessageData.Amf0Command command_name transaction_id
        command_object others)
      = process_messages s (RtmpMessageData.Amf0Command command_name
          (Amf0ValueType.Number 0) command_object others) := by
  have ht0 : command_tid_u8 transaction_id = 0 := by
    cases transaction_id with
    | Number q => exact absurd rfl (hnum q)
    | Boolean b => rfl
    | UTF8String str => rfl
    | Object o => rfl
    | Null => rfl
  have hns : command_name_str command_name ≠ "onStatus" := by
    cases command_name with
    | Number q => exact fun hc => absurd (show ("" : String) = "onStatus" from hc) (by decide)
    | Boolean b => exact fun hc => absurd (show ("" : String) = "onStatus" from hc) (by decide)
    | UTF8String str =>
      intro hcontra
      exact hname (congrArg Amf0ValueType.UTF8String hcontra)
    | Object o => exact fun hc => absurd (show ("" : String) = "onStatus" from hc) (by decide)
    | Null => exact fun hc => absurd (show ("" : String) = "onStatus" from hc) (by decide)
  have ha := dispatch_unmatched_tid_not_on_status s command_name transaction_id
    command_object others (by rw [ht0]; decide) (by rw [ht0]; decide) hns
  have hb := dispatch_unmatched_tid_not_on_status s command_name
    (Amf0ValueType.Number 0) command_object others (by decide) (by decide) hns
  exact ⟨ha, ha.trans hb.symm⟩

/-- Witness for the C10 amended theorem: an `"_error"` command with a
`Null` transaction id is dispatched exactly as with id 0, successfully and
without touching the session. -/
theorem non_number_tid_coerced_to_zero_witness :
    process_messages connectingSession
      (RtmpMessageData.Amf0Command (Amf0ValueType.UTF8String "_error")
        Amf0ValueType.Null Amf0ValueType.Null [])
      = DispatchResult.ok connectingSession []
    ∧ process_messages connectingSession
        (RtmpMessageData.Amf0Command (Amf0ValueType.UTF8String "_error")
          Amf0ValueType.Null Amf0ValueType.Null [])
      = process_messages connectingSession
        (RtmpMessageData.Amf0Command (Amf0ValueType.UTF8String "_error")
          (Amf0ValueType.Number 0) Amf0ValueType.Null []) :=
  non_number_tid_coerced_to_zero connectingSession
    (Amf0ValueType.UTF8String "_error") Amf0ValueType.Null Amf0ValueType.Null []
    (fun q h => Amf0ValueType.noConfusion h)
    (fun h => by injection h with h2; exact absurd h2 (by decide))

end Xiu
